import Mathlib

/-
  Shallow embedding of SheepShaver/src/Unix/libretro_bridge.cpp
  (the canonical libretro bridge: frame channel, audio ring, input
  translation, lifecycle).

  Conventions of the embedding:
  - The C global state is gathered into explicit state records; every
    extern "C" entry point becomes a pure function from state (plus the
    call arguments) to a new state, together with the externally
    observable outputs it produced (callback invocations, condition
    variable notifications).
  - The int16_t sample storage std::vector is modelled as a function
    Nat -> Int together with its size; element assignment is function
    update, exactly mirroring s_audio_buf[i] = v with the fixed size
    kept by the vector.
  - size_t / unsigned arithmetic in the bridge never approaches the
    wrap-around range on the inputs considered (indices are reduced
    modulo the buffer size by the code itself), so Nat faithfully
    models the index arithmetic.
  - A null pointer argument is modelled as none.
-/

namespace LibretroBridge

/-! ## Audio ring (s16 interleaved stereo), libretro_bridge.cpp lines 48-54 -/

/-- The audio FIFO globals: s_audio_buf (size + contents), capacity in
frames s_audio_buf_size_frames, and the two cursors (in samples). -/
structure AudioState where
  bufSizeFrames : Nat
  size : Nat
  buf : Nat → Int
  readIdx : Nat
  writeIdx : Nat

/-- Program-start values of the audio globals (empty vector, zero cursors). -/
def emptyAudio : AudioState :=
  { bufSizeFrames := 0, size := 0, buf := fun _ => 0, readIdx := 0, writeIdx := 0 }

/-- frames_to_samples (line 78): samples = frames * 2 for stereo. -/
def frames_to_samples (frames : Nat) : Nat := frames * 2

/-- One iteration of the store loop body (lines 98-106): write the sample at
the write cursor, advance the write cursor modulo the buffer size, and if the
write cursor has caught up with the read cursor advance the read cursor by
one sample. -/
def storeOne (st : AudioState) (s : Int) : AudioState :=
  { bufSizeFrames := st.bufSizeFrames
    size := st.size
    buf := fun j => if j = st.writeIdx then s else st.buf j
    readIdx := if (st.writeIdx + 1) % st.size = st.readIdx
               then (st.readIdx + 1) % st.size else st.readIdx
    writeIdx := (st.writeIdx + 1) % st.size }

/-- sheepbridge_store_audio_samples (lines 92-107): guard on null pointer /
zero frames / empty buffer, then write frames*2 samples through the loop. -/
def sheepbridge_store_audio_samples (st : AudioState) (samples : Option (List Int))
    (frames : Nat) : AudioState :=
  match samples with
  | none => st
  | some ss =>
    if frames = 0 then st
    else if st.size = 0 then st
    else (ss.take (frames_to_samples frames)).foldl storeOne st

/-- The available-sample computation of drain_audio_frames (lines 131-135). -/
def availSamples (st : AudioState) : Nat :=
  if st.readIdx ≤ st.writeIdx then st.writeIdx - st.readIdx
  else st.size - st.readIdx + st.writeIdx

/-- drain_audio_frames (lines 125-145): returns the copied samples, the new
state, and the number of frames drained. -/
def drain_audio_frames (st : AudioState) (maxFrames : Nat) :
    List Int × AudioState × Nat :=
  if st.size = 0 then ([], st, 0)
  else
    let availableFrames := availSamples st / 2
    let takeFrames := if maxFrames < availableFrames then maxFrames else availableFrames
    let cnt := frames_to_samples takeFrames
    let out := (List.range cnt).map fun i => st.buf ((st.readIdx + i) % st.size)
    (out, { st with readIdx := (st.readIdx + cnt) % st.size }, takeFrames)

/-- ensure_audio_capacity_frames (lines 81-89): grow-only reallocation that
zero-fills the storage and resets both cursors. -/
def ensure_audio_capacity_frames (st : AudioState) (framesCap : Nat) : AudioState :=
  if framesCap ≤ st.bufSizeFrames then st
  else
    { bufSizeFrames := framesCap
      size := frames_to_samples framesCap
      buf := fun _ => 0
      readIdx := 0
      writeIdx := 0 }

/-- The drain loop of drain_and_send_audio (lines 157-168), with explicit
fuel (each iteration drains up to 2048 frames; the loop breaks as soon as
a drain returns zero frames, before invoking any sink callback).
Accumulates the batches handed to the audio sink. -/
def drainLoop : Nat → AudioState → List (List Int) → AudioState × List (List Int)
  | 0, st, acc => (st, acc)
  | fuel + 1, st, acc =>
    let r := drain_audio_frames st 2048
    if r.2.2 = 0 then (st, acc)
    else drainLoop fuel r.2.1 (acc ++ [r.1])

/-- drain_and_send_audio (lines 151-169): no-op without an audio callback,
otherwise loop until the FIFO yields nothing. -/
def drain_and_send_audio (st : AudioState) (hasAudioCb : Bool) :
    AudioState × List (List Int) :=
  if hasAudioCb then drainLoop (st.size + 1) st [] else (st, [])

/-! ## Frame channel, libretro_bridge.cpp lines 39-46 and 172-199 -/

/-- The video globals: s_frame_available, dimensions, pitch, and the
internally owned pixel buffer.  fbuf = none models s_frame_buffer == nullptr;
capacity records the byte count passed to new at the last allocation. -/
structure FrameState where
  available : Bool
  width : Nat
  height : Nat
  pitch : Nat
  fbuf : Option (Nat → Nat)
  capacity : Nat

/-- Program-start values of the video globals. -/
def emptyFrame : FrameState :=
  { available := false, width := 0, height := 0, pitch := 0, fbuf := none, capacity := 0 }

/-- sheepbridge_submit_frame (lines 172-189).  Reallocates (and stores the
new width/height/pitch) only when the buffer is null or width*height*4 grew;
then, when src is non-null, memcpy's height*pitch bytes of the CALL's
height/pitch from src over the start of the buffer; finally sets the
available flag and issues one condition-variable notify (the returned Bool). -/
def sheepbridge_submit_frame (st : FrameState) (src : Option (List Nat))
    (width height : Nat) (pitch : Nat) : FrameState × Bool :=
  let st1 : FrameState :=
    if st.fbuf.isNone || decide (st.width * st.height * 4 < width * height * 4) then
      { available := st.available, width := width, height := height, pitch := pitch
        fbuf := some (fun _ => 0), capacity := width * height * 4 }
    else st
  let st2 : FrameState :=
    match src, st1.fbuf with
    | some s, some b =>
      { st1 with fbuf := some (fun j => if j < height * pitch then s.getD j 0 else b j) }
    | _, _ => st1
  ({ st2 with available := true }, true)

/-- sheepbridge_signal_frame (lines 192-199): set the flag, notify one. -/
def sheepbridge_signal_frame (st : FrameState) : FrameState × Bool :=
  ({ st with available := true }, true)

/-- The bytes a video sink can read from a delivered frame pointer: the first
height*pitch bytes of the buffer (the region the bridge itself fills). -/
def deliveredBytes (st : FrameState) : List Nat :=
  (List.range (st.height * st.pitch)).map (st.fbuf.getD (fun _ => 0))

/-- The frame-wait-and-present section of sheepbridge_run_frame (lines
380-391), for a tick during which no concurrent publish or signal arrives:
if no frame is available the consumer blocks in wait_for with a 1000 ms
timeout (by the contract of condition_variable wait_for it returns no later
than the timeout when nothing notifies it; modelled as exactly the timeout).
Then the frame is handed to the video callback only when the flag is set,
a callback is registered, the buffer is non-null and both dimensions are
positive; the available flag is always cleared afterwards.
Returns (new state, delivered frame or none, milliseconds spent waiting). -/
def frame_wait_and_present (st : FrameState) (videoCb : Bool) :
    FrameState × Option (List Nat × Nat × Nat × Nat) × Nat :=
  let waitedMs := if st.available then 0 else 1000
  let deliver := st.available && videoCb && st.fbuf.isSome
                 && decide (0 < st.width) && decide (0 < st.height)
  let out := if deliver then some (deliveredBytes st, st.width, st.height, st.pitch) else none
  ({ st with available := false }, out, waitedMs)

/-! ## Input translation, libretro_bridge.cpp lines 56-73 and 262-366 -/

/-- The edge-detection caches s_prev_* (lines 57-64). -/
structure InputCaches where
  prevStart : Bool
  prevSelect : Bool
  prevA : Bool
  prevB : Bool
  prevX : Bool
  prevY : Bool
  prevMouseL : Bool
  prevMouseR : Bool

/-- Program-start values of the caches (all false). -/
def emptyCaches : InputCaches :=
  { prevStart := false, prevSelect := false, prevA := false, prevB := false
    prevX := false, prevY := false, prevMouseL := false, prevMouseR := false }

/-- One tick's levels as returned by the frontend state callback for the
controls the bridge samples (lines 270-281). -/
structure Controls where
  up : Bool
  down : Bool
  left : Bool
  right : Bool
  a : Bool
  b : Bool
  x : Bool
  y : Bool
  start : Bool
  select : Bool

/-- Externally observable effects of one input tick: calls into the ADB
entry points, the virtual keyboard, and the nuklear handler. -/
inductive Ev where
  | inputPoll : Ev
  | adbMouseMoved (x y : Int) : Ev
  | adbMouseDown (button : Nat) : Ev
  | adbMouseUp (button : Nat) : Ev
  | vkbdKey (id pressed : Nat) : Ev
  | nuklearHandle : Ev
deriving DecidableEq, Repr

/-- The whole bridge: lifecycle flag, the three subsystems, the stored
callback pointers (modelled by their presence), GUI state (s_gui_visible and
the nukleargui SHOWKEY global, taken as 0/1), and the emulated mouse state. -/
structure BridgeState where
  initialised : Bool
  frame : FrameState
  audio : AudioState
  videoCb : Bool
  audioCb : Bool
  audioBatchCb : Bool
  inputPollCb : Bool
  inputStateCb : Bool
  caches : InputCaches
  guiVisible : Bool
  showkey : Bool
  mouseX : Int
  mouseY : Int
  mouseSpeed : Int

/-- Program-start bridge state (lines 33-75: null callbacks, false flags,
mouse at origin with speed 8, empty audio vector, null frame buffer). -/
def startupBridge : BridgeState :=
  { initialised := false, frame := emptyFrame, audio := emptyAudio
    videoCb := false, audioCb := false, audioBatchCb := false
    inputPollCb := false, inputStateCb := false
    caches := emptyCaches, guiVisible := false, showkey := false
    mouseX := 0, mouseY := 0, mouseSpeed := 8 }

/-- sheepbridge_nuklear_toggle (lines 231-246): flip SHOWKEY and mirror it
into s_gui_visible. -/
def sheepbridge_nuklear_toggle (st : BridgeState) : BridgeState :=
  { st with showkey := !st.showkey, guiVisible := !st.showkey }

/-- The GUI-visible path of sheepbridge_process_input (lines 295-322):
emit vkbd edges for A/B/X/Y, update those four caches, run the nuklear
handler, and return without touching the mouse state or mouse caches. -/
def processInputGui (st : BridgeState) (c : Controls) : BridgeState × List Ev :=
  let evs :=
    (if c.a && !st.caches.prevA then [Ev.vkbdKey 1 1] else [])
    ++ (if !c.a && st.caches.prevA then [Ev.vkbdKey 1 0] else [])
    ++ (if c.b && !st.caches.prevB then [Ev.vkbdKey 2 1] else [])
    ++ (if !c.b && st.caches.prevB then [Ev.vkbdKey 2 0] else [])
    ++ (if c.x && !st.caches.prevX then [Ev.vkbdKey 3 1] else [])
    ++ (if !c.x && st.caches.prevX then [Ev.vkbdKey 3 0] else [])
    ++ (if c.y && !st.caches.prevY then [Ev.vkbdKey 4 1] else [])
    ++ (if !c.y && st.caches.prevY then [Ev.vkbdKey 4 0] else [])
  let st := { st with caches :=
    { st.caches with prevA := c.a, prevB := c.b, prevX := c.x, prevY := c.y } }
  (st, evs ++ [Ev.nuklearHandle])

/-- The non-GUI path of sheepbridge_process_input (lines 324-359): D-pad
relative mouse movement with clamping to the last known frame size, then
mouse-button edges for A (left), B (right), X (middle), then the
unconditional A/B/X/Y cache update. -/
def processInputMouse (st : BridgeState) (c : Controls) : BridgeState × List Ev :=
  let dx : Int := (if c.left then -st.mouseSpeed else 0)
                + (if c.right then st.mouseSpeed else 0)
  let dy : Int := (if c.up then -st.mouseSpeed else 0)
                + (if c.down then st.mouseSpeed else 0)
  let mx0 := st.mouseX + dx
  let my0 := st.mouseY + dy
  let clamp := decide (0 < st.frame.width) && decide (0 < st.frame.height)
  let mx := if clamp then max 0 (min mx0 ((st.frame.width : Int) - 1)) else mx0
  let my := if clamp then max 0 (min my0 ((st.frame.height : Int) - 1)) else my0
  let moveEv := if dx ≠ 0 || dy ≠ 0 then [Ev.adbMouseMoved mx my] else []
  let leftR :=
    if c.a && !st.caches.prevMouseL then ([Ev.adbMouseDown 0], true)
    else if !c.a && st.caches.prevMouseL then ([Ev.adbMouseUp 0], false)
    else ([], st.caches.prevMouseL)
  let rightR :=
    if c.b && !st.caches.prevMouseR then ([Ev.adbMouseDown 1], true)
    else if !c.b && st.caches.prevMouseR then ([Ev.adbMouseUp 1], false)
    else ([], st.caches.prevMouseR)
  let midR :=
    if c.x && !st.caches.prevX then ([Ev.adbMouseDown 2], true)
    else if !c.x && st.caches.prevX then ([Ev.adbMouseUp 2], false)
    else ([], st.caches.prevX)
  let st := { st with
    mouseX := mx, mouseY := my
    caches := { st.caches with
      prevMouseL := leftR.2, prevMouseR := rightR.2
      prevA := c.a, prevB := c.b, prevX := c.x, prevY := c.y } }
  (st, moveEv ++ leftR.1 ++ rightR.1 ++ midR.1)

/-- Whether the tick takes the GUI branch: the branch condition
s_gui_visible || SHOWKEY != 0 evaluated after the possible toggle
(lines 284-295). -/
def overlayActive (st : BridgeState) (c : Controls) : Bool :=
  let st := if c.start && c.select && (!st.caches.prevStart || !st.caches.prevSelect)
            then sheepbridge_nuklear_toggle st else st
  st.guiVisible || st.showkey

/-- sheepbridge_process_input (lines 262-366): no-op without both input
callbacks; otherwise poll, read the levels, possibly toggle the GUI on the
START+SELECT rising edge, unconditionally refresh the START/SELECT caches,
then branch on GUI visibility. -/
def sheepbridge_process_input (st : BridgeState) (c : Controls) :
    BridgeState × List Ev :=
  if !(st.inputPollCb && st.inputStateCb) then (st, [])
  else
    let st := if c.start && c.select && (!st.caches.prevStart || !st.caches.prevSelect)
              then sheepbridge_nuklear_toggle st else st
    let st := { st with caches :=
      { st.caches with prevStart := c.start, prevSelect := c.select } }
    let r := if st.guiVisible || st.showkey
             then processInputGui st c
             else processInputMouse st c
    (r.1, Ev.inputPoll :: r.2)

/-! ## Lifecycle and the per-tick entry point, lines 372-444 -/

/-- sheepbridge_run_frame (lines 372-395) for a tick with no concurrent
producer activity: guard on the lifecycle flag, then input, then the frame
wait/present, then the audio drain.  Returns the new state, the input
events, the delivered frame (if any) and the audio batches sent. -/
def sheepbridge_run_frame (st : BridgeState) (c : Controls) :
    BridgeState × List Ev × Option (List Nat × Nat × Nat × Nat) × List (List Int) :=
  if !st.initialised then (st, [], none, [])
  else
    let ri := sheepbridge_process_input st c
    let rf := frame_wait_and_present ri.1.frame ri.1.videoCb
    let st2 := { ri.1 with frame := rf.1 }
    let ra := drain_and_send_audio st2.audio (st2.audioBatchCb || st2.audioCb)
    ({ st2 with audio := ra.1 }, ri.2, rf.2.1, ra.2)

/-- sheepbridge_init (lines 398-417): idempotent when already initialised;
otherwise allocate the 16384-frame zeroed audio ring, reset its cursors,
reset the mouse position, and set the lifecycle flag. -/
def sheepbridge_init (st : BridgeState) : BridgeState × Bool :=
  if st.initialised then (st, true)
  else
    ({ st with
        audio := { bufSizeFrames := 16384, size := frames_to_samples 16384
                   buf := fun _ => 0, readIdx := 0, writeIdx := 0 }
        mouseX := 0, mouseY := 0
        initialised := true }, true)

/-- sheepbridge_deinit (lines 420-444): clear the audio ring, free the frame
buffer, zero the dimensions, clear the available flag, null out every stored
callback, and clear the lifecycle flag.  The returned Nat counts the
condition-variable notifications it issues: the canonical deinit issues
none. -/
def sheepbridge_deinit (st : BridgeState) : BridgeState × Nat :=
  ({ st with
      audio := { bufSizeFrames := 0, size := 0, buf := st.audio.buf
                 readIdx := 0, writeIdx := 0 }
      frame := { available := false, width := 0, height := 0, pitch := 0
                 fbuf := none, capacity := 0 }
      inputPollCb := false, inputStateCb := false
      audioCb := false, audioBatchCb := false, videoCb := false
      initialised := false }, 0)

/-- Bridge-level wrapper of the audio push (the store only touches the
audio globals). -/
def bridge_store_audio (st : BridgeState) (samples : Option (List Int))
    (frames : Nat) : BridgeState :=
  { st with audio := sheepbridge_store_audio_samples st.audio samples frames }

/-- Bridge-level wrapper of the frame publish (the submit only touches the
frame globals); also returns the notify flag. -/
def bridge_submit_frame (st : BridgeState) (src : Option (List Nat))
    (width height : Nat) (pitch : Nat) : BridgeState × Bool :=
  let r := sheepbridge_submit_frame st.frame src width height pitch
  ({ st with frame := r.1 }, r.2)

/-! ## Concrete states used by the verification -/

/-- A running bridge with the GUI overlay visible and both input callbacks
registered, all edge caches at their reset values. -/
def guiTickState : BridgeState :=
  { startupBridge with
    initialised := true
    inputPollCb := true
    inputStateCb := true
    guiVisible := true
    showkey := true }

/-- A running bridge with overlay off and both input callbacks registered. -/
def plainTickState : BridgeState :=
  { startupBridge with
    initialised := true
    inputPollCb := true
    inputStateCb := true }

/-- A control snapshot with only the A button held. -/
def pressA : Controls :=
  { up := false, down := false, left := false, right := false
    a := true, b := false, x := false, y := false
    start := false, select := false }

/-- A running bridge holding one pending 1x1 frame, a registered video
callback, and a consumer about to wait on the frame channel. -/
def pendingFrameBridge : BridgeState :=
  { startupBridge with
    initialised := true
    videoCb := true
    frame := { available := true, width := 1, height := 1, pitch := 4
               fbuf := some (fun _ => 5), capacity := 4 } }

end LibretroBridge

namespace LibretroBridge

/-! ## Helper lemmas about the audio ring -/

/-- Pushing samples one by one into a ring whose read cursor is at 0, while
the write cursor stays strictly below the buffer size, never triggers the
overflow branch: the write cursor advances linearly and the pushed samples
sit at consecutive positions. -/
theorem foldl_storeOne_linear (l : List Int) : ∀ (st : AudioState),
    st.readIdx = 0 → st.writeIdx + l.length < st.size →
    ((l.foldl storeOne st).bufSizeFrames = st.bufSizeFrames ∧
     (l.foldl storeOne st).size = st.size ∧
     (l.foldl storeOne st).readIdx = 0 ∧
     (l.foldl storeOne st).writeIdx = st.writeIdx + l.length) ∧
    ∀ j : Nat, (l.foldl storeOne st).buf j =
      if st.writeIdx ≤ j ∧ j < st.writeIdx + l.length
      then l.getD (j - st.writeIdx) 0 else st.buf j := by
  induction l with
  | nil =>
    intro st h0 hlt
    simp only [List.foldl_nil, List.length_nil, Nat.add_zero]
    refine ⟨⟨trivial, trivial, h0, trivial⟩, ?_⟩
    intro j
    rw [if_neg (by omega)]
  | cons a t ih =>
    intro st h0 hlt
    simp only [List.length_cons] at hlt
    have hw1lt : st.writeIdx + 1 < st.size := by omega
    have hmod : (st.writeIdx + 1) % st.size = st.writeIdx + 1 := Nat.mod_eq_of_lt hw1lt
    have hcol : ¬((st.writeIdx + 1) % st.size = st.readIdx) := by
      rw [hmod, h0]; omega
    have hst1r : (storeOne st a).readIdx = st.readIdx := by
      simp only [storeOne]; rw [if_neg hcol]
    have hst1w : (storeOne st a).writeIdx = st.writeIdx + 1 := by
      simp only [storeOne]; exact hmod
    have hst1s : (storeOne st a).size = st.size := rfl
    have hst1bsf : (storeOne st a).bufSizeFrames = st.bufSizeFrames := rfl
    have hst1b : ∀ j, (storeOne st a).buf j
        = if j = st.writeIdx then a else st.buf j := fun _ => rfl
    have hpre : (storeOne st a).writeIdx + t.length < (storeOne st a).size := by
      rw [hst1w, hst1s]; omega
    obtain ⟨⟨hbsf, hsz, hr, hw⟩, hbuf⟩ :=
      ih (storeOne st a) (by rw [hst1r]; exact h0) hpre
    rw [List.foldl_cons]
    refine ⟨⟨by rw [hbsf, hst1bsf], by rw [hsz, hst1s], hr, ?_⟩, ?_⟩
    · rw [hw, hst1w, List.length_cons]; omega
    · intro j
      rw [hbuf j, hst1w]
      by_cases hj1 : st.writeIdx + 1 ≤ j ∧ j < st.writeIdx + 1 + t.length
      · rw [if_pos hj1, if_pos (by simp only [List.length_cons]; omega)]
        have hsub : j - st.writeIdx = (j - (st.writeIdx + 1)) + 1 := by omega
        rw [hsub, List.getD_cons_succ]
      · rw [if_neg hj1, hst1b j]
        by_cases hjw : j = st.writeIdx
        · subst hjw
          rw [if_pos rfl, if_pos (by simp only [List.length_cons]; omega)]
          simp
        · rw [if_neg hjw, if_neg (by simp only [List.length_cons]; omega)]

/-- The write that makes the write cursor catch the read cursor on a fresh
ring: the overflow branch advances the read cursor by exactly one sample. -/
theorem storeOne_wrap (st : AudioState) (a : Int)
    (h0 : st.readIdx = 0) (hw : st.writeIdx + 1 = st.size) (h2 : 2 ≤ st.size) :
    (storeOne st a).readIdx = 1 ∧ (storeOne st a).writeIdx = 0 ∧
    (storeOne st a).size = st.size := by
  have hmod : (st.writeIdx + 1) % st.size = 0 := by
    rw [hw, Nat.mod_self]
  have hcol : (st.writeIdx + 1) % st.size = st.readIdx := by rw [hmod, h0]
  refine ⟨?_, ?_, rfl⟩
  · simp only [storeOne]
    rw [if_pos hcol, h0]
    exact Nat.mod_eq_of_lt (by omega)
  · simp only [storeOne]
    exact hmod

/-- Filling a fresh even-sized ring to the brim leaves the cursors one
sample apart: read at 1, write at 0. -/
theorem fresh_ring_full_push (n : Nat) (h2 : 2 ≤ n) (bsf : Nat) (fz : Nat → Int) :
    availSamples ((List.replicate n (0 : Int)).foldl storeOne
      { bufSizeFrames := bsf, size := n, buf := fz, readIdx := 0, writeIdx := 0 })
      = n - 1 := by
  obtain ⟨m, rfl⟩ : ∃ m, n = m + 1 := ⟨n - 1, by omega⟩
  rw [List.replicate_succ', List.foldl_append]
  obtain ⟨⟨_, hsz, hr, hw⟩, _⟩ :=
    foldl_storeOne_linear (List.replicate m (0 : Int))
      { bufSizeFrames := bsf, size := m + 1, buf := fz, readIdx := 0, writeIdx := 0 }
      rfl
      (show 0 + (List.replicate m (0 : Int)).length < m + 1 by
        rw [Nat.zero_add, List.length_replicate]; omega)
  set stm := (List.replicate m (0 : Int)).foldl storeOne
      { bufSizeFrames := bsf, size := m + 1, buf := fz, readIdx := 0, writeIdx := 0 }
    with hstm
  have hsz' : stm.size = m + 1 := hsz
  have hw' : stm.writeIdx = m := by
    rw [hw]
    show 0 + (List.replicate m (0 : Int)).length = m
    rw [Nat.zero_add, List.length_replicate]
  simp only [List.foldl_cons, List.foldl_nil]
  obtain ⟨hr1, hw1, hs1⟩ := storeOne_wrap stm 0 hr (by omega) (by omega)
  simp only [availSamples, hr1, hw1]
  rw [if_neg (by omega), hs1, hsz']
  omega

/-- A single drain copies at most maxFrames frames, i.e. 2*maxFrames samples. -/
theorem drain_audio_frames_batch_le (st : AudioState) (m : Nat) :
    (drain_audio_frames st m).1.length ≤ frames_to_samples m := by
  unfold drain_audio_frames
  split
  · simp [frames_to_samples]
  · dsimp only
    simp only [List.length_map, List.length_range, frames_to_samples]
    split <;> omega

/-- Every batch accumulated by the drain loop is at most 2048 frames long. -/
theorem drainLoop_batches_le : ∀ (fuel : Nat) (st : AudioState) (acc : List (List Int)),
    (∀ b ∈ acc, b.length ≤ frames_to_samples 2048) →
    ∀ b ∈ (drainLoop fuel st acc).2, b.length ≤ frames_to_samples 2048 := by
  intro fuel
  induction fuel with
  | zero =>
    intro st acc hacc b hb
    exact hacc b hb
  | succ n ih =>
    intro st acc hacc b hb
    simp only [drainLoop] at hb
    split at hb
    · exact hacc b hb
    · refine ih _ _ ?_ b hb
      intro b' hb'
      rcases List.mem_append.mp hb' with h | h
      · exact hacc b' h
      · rw [List.mem_singleton] at h
        subst h
        exact drain_audio_frames_batch_le st 2048

/-- drain_and_send_audio only hands the sink batches of at most 2048 frames. -/
theorem drain_and_send_batches_le (st : AudioState) (cb : Bool) :
    ∀ b ∈ (drain_and_send_audio st cb).2, b.length ≤ frames_to_samples 2048 := by
  unfold drain_and_send_audio
  split
  · exact drainLoop_batches_le _ _ _ (by intro b hb; simp at hb)
  · intro b hb
    simp at hb

/-- When nothing is available the first drain takes zero frames, so the drain
loop stops before ever invoking the sink. -/
theorem drain_ring_empty_no_batch (st : AudioState) (hasCb : Bool)
    (h : availSamples st = 0) :
    (drain_and_send_audio st hasCb).2 = [] := by
  have hd : (drain_audio_frames st 2048).2.2 = 0 := by
    unfold drain_audio_frames
    split
    · rfl
    · dsimp only
      rw [h]
      norm_num
  unfold drain_and_send_audio
  split
  · simp [drainLoop, hd]
  · rfl

end LibretroBridge

namespace LibretroBridge

/-! ## Helper lemmas about the frame channel -/

/-- Reading a list back off an indexed function that agrees with it on the
index range reproduces the list. -/
theorem range_map_getD (n : Nat) (l : List Nat) (f : Nat → Nat)
    (hn : l.length = n) (hf : ∀ j, j < n → f j = l.getD j 0) :
    (List.range n).map f = l := by
  apply List.ext_getElem
  · simp [hn]
  · intro i h1 h2
    have hi : i < n := by simpa using h1
    simp only [List.getElem_map, List.getElem_range]
    rw [hf i hi, List.getD_eq_getElem l 0 h2]

/-- sheepbridge_submit_frame when the buffer exists and the pixel count did
not grow: no reallocation, the call's height*pitch bytes are copied over the
buffer, the flag is set and one notify issued. -/
theorem submit_no_realloc_copy (st : FrameState) (s : List Nat) (b : Nat → Nat)
    (w h p : Nat) (hb : st.fbuf = some b)
    (hgrow : ¬(st.width * st.height * 4 < w * h * 4)) :
    sheepbridge_submit_frame st (some s) w h p
      = ({ st with
            available := true
            fbuf := some (fun j => if j < h * p then s.getD j 0 else b j) }, true) := by
  unfold sheepbridge_submit_frame
  have hc : (st.fbuf.isNone || decide (st.width * st.height * 4 < w * h * 4)) = false := by
    rw [hb]
    simp [hgrow]
  rw [hc]
  simp [hb]

/-- sheepbridge_submit_frame with a null source pointer and no growth: the
state is unchanged except that the available flag is set. -/
theorem submit_null_no_copy (st : FrameState) (b : Nat → Nat) (w h p : Nat)
    (hb : st.fbuf = some b)
    (hgrow : ¬(st.width * st.height * 4 < w * h * 4)) :
    sheepbridge_submit_frame st none w h p = ({ st with available := true }, true) := by
  unfold sheepbridge_submit_frame
  have hc : (st.fbuf.isNone || decide (st.width * st.height * 4 < w * h * 4)) = false := by
    rw [hb]
    simp [hgrow]
  rw [hc]
  simp [hb]

/-- The present step when a frame is pending, a callback is registered, the
buffer is non-null and the dimensions are positive: it delivers the buffer. -/
theorem present_delivers (st : FrameState) (hav : st.available = true)
    (hb : st.fbuf.isSome = true) (hw : 0 < st.width) (hh : 0 < st.height) :
    frame_wait_and_present st true
      = ({ st with available := false },
         some (deliveredBytes st, st.width, st.height, st.pitch), 0) := by
  unfold frame_wait_and_present
  simp [hav, hb, hw, hh]

/-! ## Helper lemmas about input translation -/

/-- The GUI path refreshes the A/B/X/Y caches to the sampled levels. -/
theorem processInputGui_prevA (st : BridgeState) (c : Controls) :
    (processInputGui st c).1.caches.prevA = c.a := rfl

theorem processInputGui_prevB (st : BridgeState) (c : Controls) :
    (processInputGui st c).1.caches.prevB = c.b := rfl

theorem processInputGui_prevX (st : BridgeState) (c : Controls) :
    (processInputGui st c).1.caches.prevX = c.x := rfl

theorem processInputGui_prevY (st : BridgeState) (c : Controls) :
    (processInputGui st c).1.caches.prevY = c.y := rfl

/-- The GUI path leaves the mouse-button caches untouched. -/
theorem processInputGui_prevMouseL (st : BridgeState) (c : Controls) :
    (processInputGui st c).1.caches.prevMouseL = st.caches.prevMouseL := rfl

theorem processInputGui_prevMouseR (st : BridgeState) (c : Controls) :
    (processInputGui st c).1.caches.prevMouseR = st.caches.prevMouseR := rfl

theorem processInputGui_prevStart (st : BridgeState) (c : Controls) :
    (processInputGui st c).1.caches.prevStart = st.caches.prevStart := rfl

theorem processInputGui_prevSelect (st : BridgeState) (c : Controls) :
    (processInputGui st c).1.caches.prevSelect = st.caches.prevSelect := rfl

/-- The mouse path refreshes the A/B/X/Y caches to the sampled levels. -/
theorem processInputMouse_prevA (st : BridgeState) (c : Controls) :
    (processInputMouse st c).1.caches.prevA = c.a := rfl

theorem processInputMouse_prevB (st : BridgeState) (c : Controls) :
    (processInputMouse st c).1.caches.prevB = c.b := rfl

theorem processInputMouse_prevX (st : BridgeState) (c : Controls) :
    (processInputMouse st c).1.caches.prevX = c.x := rfl

theorem processInputMouse_prevY (st : BridgeState) (c : Controls) :
    (processInputMouse st c).1.caches.prevY = c.y := rfl

theorem processInputMouse_prevStart (st : BridgeState) (c : Controls) :
    (processInputMouse st c).1.caches.prevStart = st.caches.prevStart := rfl

theorem processInputMouse_prevSelect (st : BridgeState) (c : Controls) :
    (processInputMouse st c).1.caches.prevSelect = st.caches.prevSelect := rfl

/-- On the mouse path the left-mouse cache ends up equal to the sampled A
level (set on a press edge, cleared on a release edge, unchanged otherwise). -/
theorem processInputMouse_prevMouseL (st : BridgeState) (c : Controls) :
    (processInputMouse st c).1.caches.prevMouseL = c.a := by
  unfold processInputMouse
  cases ha : c.a <;> cases hl : st.caches.prevMouseL <;> simp [ha, hl]

/-- On the mouse path the right-mouse cache ends up equal to the sampled B
level. -/
theorem processInputMouse_prevMouseR (st : BridgeState) (c : Controls) :
    (processInputMouse st c).1.caches.prevMouseR = c.b := by
  unfold processInputMouse
  cases hb : c.b <;> cases hr : st.caches.prevMouseR <;> simp [hb, hr]

/-! ## The claims -/

/-- Claim C1 (code behaviour at the spec's concrete scenario): with a
capacity-4 ring, pushing the six stereo frames (10,11) .. (60,61) and then
draining with max_frames = 10 does NOT return the frames 3..6; the overflow
branch drops one SAMPLE (not one frame) per collision, so the drain returns
the 6 samples [31, 40, 41, 50, 51, 60] — misaligned mid-frame data — rather
than the 8 samples [30, 31, 40, 41, 50, 51, 60, 61] of frames 3..6. -/
theorem audio_overflow_drops_single_sample :
    (drain_audio_frames (sheepbridge_store_audio_samples
        (ensure_audio_capacity_frames emptyAudio 4)
        (some [10, 11, 20, 21, 30, 31, 40, 41, 50, 51, 60, 61]) 6) 10).1
      = [31, 40, 41, 50, 51, 60]
    ∧ ¬((drain_audio_frames (sheepbridge_store_audio_samples
        (ensure_audio_capacity_frames emptyAudio 4)
        (some [10, 11, 20, 21, 30, 31, 40, 41, 50, 51, 60, 61]) 6) 10).1
      = [30, 31, 40, 41, 50, 51, 60, 61]) := by
  decide

/-- Claim C2 (code behaviour at a failing input): after sheepbridge_init
(capacity 16384 frames, 32768 samples), pushing 16384 frames leaves
32767 valid samples between the cursors — an odd number, so the ring holds
half a frame: the whole-number-of-frames invariant is violated by the
one-sample overflow drop. -/
theorem audio_ring_parity_violation :
    availSamples (sheepbridge_store_audio_samples
        (sheepbridge_init startupBridge).1.audio
        (some (List.replicate 32768 0)) 16384) = 32767
    ∧ ¬ Even (32767 : Nat) := by
  refine ⟨?_, by decide⟩
  have hred : (sheepbridge_init startupBridge).1.audio
      = { bufSizeFrames := 16384, size := 32768, buf := fun _ => (0 : Int)
          readIdx := 0, writeIdx := 0 } := rfl
  rw [hred]
  simp only [sheepbridge_store_audio_samples]
  rw [if_neg (by decide), if_neg (by decide)]
  rw [show frames_to_samples 16384 = 32768 from rfl]
  rw [List.take_replicate, Nat.min_self]
  rw [fresh_ring_full_push 32768 (by norm_num) 16384 (fun _ => (0 : Int))]

/-- Claim C8 counterexample: with capacity exactly 3 the ring can hold only
5 samples (2.5 frames), so pushing the three frames (10,11), (20,21), (30,31)
and draining with max_frames = 3 yields [11, 20, 21, 30], not the pushed
sequence: the claim fails at capacity 3. -/
theorem audio_fifo_capacity_three_fails :
    (drain_audio_frames (sheepbridge_store_audio_samples
        (ensure_audio_capacity_frames emptyAudio 3)
        (some [10, 11, 20, 21, 30, 31]) 3) 3).1 = [11, 20, 21, 30]
    ∧ ¬((drain_audio_frames (sheepbridge_store_audio_samples
        (ensure_audio_capacity_frames emptyAudio 3)
        (some [10, 11, 20, 21, 30, 31]) 3) 3).1 = [10, 11, 20, 21, 30, 31]) := by
  decide

/-- Claim C8 (amended: capacity at least 4, i.e. strictly more frames of
capacity than frames pushed): pushing stereo frames A, B, C into a fresh
ring of capacity N >= 4 and draining with max_frames >= 3 yields exactly
A, B, C in order; moreover draining never produces a batch when the ring is
empty, and every batch handed to the sink is at most 2048 frames. -/
theorem audio_fifo_order (N maxF bsf : Nat) (a1 a2 b1 b2 c1 c2 : Int)
    (buf0 : Nat → Int) (hN : 4 ≤ N) (hM : 3 ≤ maxF)
    (stE : AudioState) (cbE : Bool) (hE : availSamples stE = 0)
    (stB : AudioState) (cbB : Bool) :
    (drain_audio_frames
      (sheepbridge_store_audio_samples
        { bufSizeFrames := bsf, size := 2 * N, buf := buf0, readIdx := 0, writeIdx := 0 }
        (some [a1, a2, b1, b2, c1, c2]) 3) maxF).1 = [a1, a2, b1, b2, c1, c2]
    ∧ (drain_and_send_audio stE cbE).2 = []
    ∧ (∀ batch ∈ (drain_and_send_audio stB cbB).2,
        batch.length ≤ frames_to_samples 2048) := by
  refine ⟨?_, drain_ring_empty_no_batch stE cbE hE, drain_and_send_batches_le stB cbB⟩
  set st0 : AudioState :=
    { bufSizeFrames := bsf, size := 2 * N, buf := buf0, readIdx := 0, writeIdx := 0 }
    with hst0
  set l : List Int := [a1, a2, b1, b2, c1, c2] with hl
  have hstore : sheepbridge_store_audio_samples st0 (some l) 3 = l.foldl storeOne st0 := by
    simp only [sheepbridge_store_audio_samples]
    rw [if_neg (by norm_num), if_neg (show ¬(st0.size = 0) by
      show ¬(2 * N = 0); omega)]
    rw [show l.take (frames_to_samples 3) = l from rfl]
  rw [hstore]
  obtain ⟨⟨_, hsz, hr, hw⟩, hbuf⟩ :=
    foldl_storeOne_linear l st0 rfl (show 0 + 6 < 2 * N by omega)
  set S := l.foldl storeOne st0 with hS
  have hsz' : S.size = 2 * N := hsz
  have hr' : S.readIdx = 0 := hr
  have hw' : S.writeIdx = 6 := by rw [hw]; rfl
  have havail : availSamples S = 6 := by
    simp only [availSamples, hr', hw']
    norm_num
  have key : ∀ j : Nat, j < 6 → S.buf j = l.getD j 0 := by
    intro j hj
    rw [hbuf j, if_pos ⟨Nat.zero_le j, show j < 0 + 6 by omega⟩]
    rfl
  unfold drain_audio_frames
  rw [if_neg (show ¬(S.size = 0) by rw [hsz']; omega)]
  dsimp only
  rw [havail]
  rw [show (6 : Nat) / 2 = 3 from rfl, if_neg (by omega)]
  rw [show frames_to_samples 3 = 6 from rfl]
  rw [show List.range 6 = [0, 1, 2, 3, 4, 5] from rfl]
  simp only [List.map_cons, List.map_nil, hr', hsz', Nat.zero_add]
  have hm : ∀ i : Nat, i < 6 → i % (2 * N) = i := fun i hi => Nat.mod_eq_of_lt (by omega)
  rw [hm 0 (by norm_num), hm 1 (by norm_num), hm 2 (by norm_num),
      hm 3 (by norm_num), hm 4 (by norm_num), hm 5 (by norm_num)]
  rw [key 0 (by norm_num), key 1 (by norm_num), key 2 (by norm_num),
      key 3 (by norm_num), key 4 (by norm_num), key 5 (by norm_num)]
  rfl

/-- Claim C3: latest frame wins.  From a fresh channel, publishing F1 then F2
(same positive dimensions, frame data of the copied size height*pitch, the
copy in bounds) and then running one consumer take delivers exactly F2's
bytes; F1 is never delivered; and a second take delivers nothing, since the
available flag was cleared by the first take. -/
theorem frame_latest_wins (w h p : Nat) (f1 f2 : List Nat)
    (hw : 0 < w) (hh : 0 < h)
    (hf1 : f1.length = h * p) (hf2 : f2.length = h * p)
    (hfit : h * p ≤ w * h * 4) :
    ((frame_wait_and_present ((sheepbridge_submit_frame
        ((sheepbridge_submit_frame emptyFrame (some f1) w h p).1)
        (some f2) w h p).1) true).2.1 = some (f2, w, h, p))
    ∧ (f1 ≠ f2 →
       (frame_wait_and_present ((sheepbridge_submit_frame
        ((sheepbridge_submit_frame emptyFrame (some f1) w h p).1)
        (some f2) w h p).1) true).2.1 ≠ some (f1, w, h, p))
    ∧ ((frame_wait_and_present (frame_wait_and_present ((sheepbridge_submit_frame
        ((sheepbridge_submit_frame emptyFrame (some f1) w h p).1)
        (some f2) w h p).1) true).1 true).2.1 = none) := by
  have h1 : (sheepbridge_submit_frame emptyFrame (some f1) w h p).1
      = { available := true, width := w, height := h, pitch := p
          fbuf := some (fun j => if j < h * p then f1.getD j 0 else 0)
          capacity := w * h * 4 } := rfl
  have h2 := submit_no_realloc_copy
      { available := true, width := w, height := h, pitch := p
        fbuf := some (fun j => if j < h * p then f1.getD j 0 else 0)
        capacity := w * h * 4 }
      f2 (fun j => if j < h * p then f1.getD j 0 else 0) w h p rfl
      (show ¬(w * h * 4 < w * h * 4) by omega)
  have hpres := present_delivers
      { available := true, width := w, height := h, pitch := p
        fbuf := some (fun j => if j < h * p then f2.getD j 0
                      else if j < h * p then f1.getD j 0 else 0)
        capacity := w * h * 4 }
      rfl rfl hw hh
  have hdel : deliveredBytes
      { available := true, width := w, height := h, pitch := p
        fbuf := some (fun j => if j < h * p then f2.getD j 0
                      else if j < h * p then f1.getD j 0 else 0)
        capacity := w * h * 4 } = f2 := by
    show (List.range (h * p)).map (fun j => if j < h * p then f2.getD j 0
        else if j < h * p then f1.getD j 0 else 0) = f2
    exact range_map_getD (h * p) f2 _ hf2 (fun j hj => by simp [hj])
  have hfirst : (frame_wait_and_present ((sheepbridge_submit_frame
        ((sheepbridge_submit_frame emptyFrame (some f1) w h p).1)
        (some f2) w h p).1) true)
      = ({ available := false, width := w, height := h, pitch := p
           fbuf := some (fun j => if j < h * p then f2.getD j 0
                         else if j < h * p then f1.getD j 0 else 0)
           capacity := w * h * 4 },
         some (f2, w, h, p), 0) := by
    rw [h1, h2]
    show frame_wait_and_present
      { available := true, width := w, height := h, pitch := p
        fbuf := some (fun j => if j < h * p then f2.getD j 0
                      else if j < h * p then f1.getD j 0 else 0)
        capacity := w * h * 4 } true = _
    rw [hpres, hdel]
  refine ⟨by rw [hfirst], ?_, ?_⟩
  · intro hne heq
    rw [hfirst] at heq
    simp only [Option.some.injEq, Prod.mk.injEq] at heq
    exact hne heq.1.symm
  · rw [hfirst]
    show (frame_wait_and_present
      { available := false, width := w, height := h, pitch := p
        fbuf := some (fun j => if j < h * p then f2.getD j 0
                      else if j < h * p then f1.getD j 0 else 0)
        capacity := w * h * 4 } true).2.1 = none
    unfold frame_wait_and_present
    simp

/-- Witness for frame_latest_wins at a 1x1 frame with pitch 4. -/
theorem frame_latest_wins_witness :
    (0 < 1) ∧ ([1, 1, 1, 1] : List Nat).length = 1 * 4
    ∧ ([2, 2, 2, 2] : List Nat).length = 1 * 4 ∧ 1 * 4 ≤ 1 * 1 * 4
    ∧ (((frame_wait_and_present ((sheepbridge_submit_frame
        ((sheepbridge_submit_frame emptyFrame (some [1, 1, 1, 1]) 1 1 4).1)
        (some [2, 2, 2, 2]) 1 1 4).1) true).2.1 = some ([2, 2, 2, 2], 1, 1, 4))
      ∧ (([1, 1, 1, 1] : List Nat) ≠ [2, 2, 2, 2] →
         (frame_wait_and_present ((sheepbridge_submit_frame
          ((sheepbridge_submit_frame emptyFrame (some [1, 1, 1, 1]) 1 1 4).1)
          (some [2, 2, 2, 2]) 1 1 4).1) true).2.1 ≠ some ([1, 1, 1, 1], 1, 1, 4))
      ∧ ((frame_wait_and_present (frame_wait_and_present ((sheepbridge_submit_frame
          ((sheepbridge_submit_frame emptyFrame (some [1, 1, 1, 1]) 1 1 4).1)
          (some [2, 2, 2, 2]) 1 1 4).1) true).1 true).2.1 = none)) :=
  ⟨by decide, by decide, by decide, by decide,
   frame_latest_wins 1 1 4 [1, 1, 1, 1] [2, 2, 2, 2]
     (by decide) (by decide) (by decide) (by decide) (by decide)⟩

/-- Claim C7 (code behaviour at a failing input): submitting a 1x1 frame
with pitch 8 into a fresh channel allocates width*height*4 = 4 bytes but
stores height = 1, pitch = 8, so capacity < height*stride: the memcpy of
height*pitch = 8 bytes overruns the 4-byte buffer. -/
theorem frame_buffer_capacity_violation :
    ((sheepbridge_submit_frame emptyFrame
        (some [9, 9, 9, 9, 9, 9, 9, 9]) 1 1 8).1.fbuf.isSome = true)
    ∧ (sheepbridge_submit_frame emptyFrame
        (some [9, 9, 9, 9, 9, 9, 9, 9]) 1 1 8).1.capacity = 4
    ∧ (sheepbridge_submit_frame emptyFrame
        (some [9, 9, 9, 9, 9, 9, 9, 9]) 1 1 8).1.height
      * (sheepbridge_submit_frame emptyFrame
        (some [9, 9, 9, 9, 9, 9, 9, 9]) 1 1 8).1.pitch = 8
    ∧ ¬((sheepbridge_submit_frame emptyFrame
        (some [9, 9, 9, 9, 9, 9, 9, 9]) 1 1 8).1.height
      * (sheepbridge_submit_frame emptyFrame
        (some [9, 9, 9, 9, 9, 9, 9, 9]) 1 1 8).1.pitch
      ≤ (sheepbridge_submit_frame emptyFrame
        (some [9, 9, 9, 9, 9, 9, 9, 9]) 1 1 8).1.capacity) := by
  decide

/-- Claim C9: when no publish is ever issued (the available flag is false and
nothing notifies the waiter), the frame wait of sheepbridge_run_frame spends
at most the 1000 ms timeout and delivers nothing: the video callback is not
invoked on that tick. -/
theorem no_publish_wait_bounded (st : FrameState) (videoCb : Bool)
    (h : st.available = false) :
    (frame_wait_and_present st videoCb).2.1 = none
    ∧ (frame_wait_and_present st videoCb).2.2 ≤ 1000 := by
  unfold frame_wait_and_present
  simp [h]

/-- Witness for no_publish_wait_bounded on the fresh frame channel. -/
theorem no_publish_wait_bounded_witness :
    emptyFrame.available = false
    ∧ ((frame_wait_and_present emptyFrame true).2.1 = none
       ∧ (frame_wait_and_present emptyFrame true).2.2 ≤ 1000) :=
  ⟨rfl, no_publish_wait_bounded emptyFrame true rfl⟩

/-- Claim C10: submitting with a null pixel pointer and dimensions matching
the stored frame leaves the buffer bytes untouched, still sets the available
flag and notifies, and the next run delivers the previous buffer contents to
the video callback as if a new frame had been published. -/
theorem submit_null_src_delivers_previous (st : FrameState) (b : Nat → Nat)
    (w h p : Nat) (hb : st.fbuf = some b) (hwid : st.width = w) (hhei : st.height = h)
    (hw0 : 0 < w) (hh0 : 0 < h) :
    (sheepbridge_submit_frame st none w h p).1 = { st with available := true }
    ∧ (sheepbridge_submit_frame st none w h p).2 = true
    ∧ (frame_wait_and_present (sheepbridge_submit_frame st none w h p).1 true).2.1
        = some ((List.range (st.height * st.pitch)).map b, st.width, st.height, st.pitch) := by
  subst hwid hhei
  have hs := submit_null_no_copy st b st.width st.height p hb (by omega)
  refine ⟨by rw [hs], by rw [hs], ?_⟩
  rw [hs]
  have hpres := present_delivers { st with available := true } rfl
      (show st.fbuf.isSome = true by rw [hb]; rfl) hw0 hh0
  rw [hpres]
  show some (deliveredBytes { st with available := true }, st.width, st.height, st.pitch)
      = some ((List.range (st.height * st.pitch)).map b, st.width, st.height, st.pitch)
  have : deliveredBytes { st with available := true }
      = (List.range (st.height * st.pitch)).map b := by
    show (List.range (st.height * st.pitch)).map (st.fbuf.getD (fun _ => 0))
        = (List.range (st.height * st.pitch)).map b
    rw [hb]
    rfl
  rw [this]

/-- Witness for submit_null_src_delivers_previous on a 1x1 frame holding
the constant byte 5. -/
theorem submit_null_src_delivers_previous_witness :
    pendingFrameBridge.frame.fbuf = some (fun _ => 5)
    ∧ (0 < 1)
    ∧ ((sheepbridge_submit_frame pendingFrameBridge.frame none 1 1 4).1
        = { pendingFrameBridge.frame with available := true }
      ∧ (sheepbridge_submit_frame pendingFrameBridge.frame none 1 1 4).2 = true
      ∧ (frame_wait_and_present
          (sheepbridge_submit_frame pendingFrameBridge.frame none 1 1 4).1 true).2.1
          = some ((List.range (pendingFrameBridge.frame.height
              * pendingFrameBridge.frame.pitch)).map (fun _ => 5),
              pendingFrameBridge.frame.width, pendingFrameBridge.frame.height,
              pendingFrameBridge.frame.pitch)) :=
  ⟨rfl, by decide,
   submit_null_src_delivers_previous pendingFrameBridge.frame (fun _ => 5) 1 1 4
     rfl rfl rfl (by decide) (by decide)⟩

/-- Claim C4 counterexample: sheepbridge_submit_frame is not guarded by the
lifecycle flag: called on the uninitialised startup state it changes bridge
state (the frame-available flag flips from false to true), so it is not a
no-op before init. -/
theorem submit_frame_not_guarded_by_init :
    startupBridge.initialised = false
    ∧ startupBridge.frame.available = false
    ∧ (bridge_submit_frame startupBridge (some [5, 5, 5, 5]) 1 1 4).1.frame.available
        = true := by
  decide

/-- Claim C4 (amended): sheepbridge_run_frame called while not initialised is
a silent no-op (state unchanged, no input events, no frame delivery, no audio
batches), and sheepbridge_store_audio_samples is a no-op whenever the audio
storage is empty, as it is before init and after deinit; sheepbridge_submit_frame,
however, is not guarded: in any state it sets the frame-available flag. -/
theorem uninitialised_ops_noop (st : BridgeState) (c : Controls)
    (samples : Option (List Int)) (frames : Nat)
    (src : Option (List Nat)) (w h p : Nat)
    (hinit : st.initialised = false) (hbuf : st.audio.size = 0) :
    sheepbridge_run_frame st c = (st, [], none, [])
    ∧ bridge_store_audio st samples frames = st
    ∧ (bridge_submit_frame st src w h p).1.frame.available = true := by
  refine ⟨?_, ?_, rfl⟩
  · unfold sheepbridge_run_frame
    rw [hinit]
    rfl
  · have hstore : sheepbridge_store_audio_samples st.audio samples frames = st.audio := by
      unfold sheepbridge_store_audio_samples
      cases samples with
      | none => rfl
      | some ss =>
        show (if frames = 0 then st.audio else if st.audio.size = 0 then st.audio
          else (ss.take (frames_to_samples frames)).foldl storeOne st.audio) = st.audio
        by_cases hf : frames = 0
        · rw [if_pos hf]
        · rw [if_neg hf, if_pos hbuf]
    unfold bridge_store_audio
    rw [hstore]

/-- Witness for uninitialised_ops_noop at the startup state. -/
theorem uninitialised_ops_noop_witness :
    startupBridge.initialised = false ∧ startupBridge.audio.size = 0
    ∧ (sheepbridge_run_frame startupBridge pressA = (startupBridge, [], none, [])
      ∧ bridge_store_audio startupBridge (some [1, 2]) 1 = startupBridge
      ∧ (bridge_submit_frame startupBridge (some [5, 5, 5, 5]) 1 1 4).1.frame.available
          = true) :=
  ⟨rfl, rfl,
   uninitialised_ops_noop startupBridge pressA (some [1, 2]) 1 (some [5, 5, 5, 5]) 1 1 4
     rfl rfl⟩

/-- Claim C5 counterexample: the canonical sheepbridge_deinit sets the
frame-available flag to FALSE (not true) and issues no condition-variable
notification at all, shown at a state with a pending frame. -/
theorem deinit_does_not_notify :
    (sheepbridge_deinit pendingFrameBridge).1.frame.available = false
    ∧ (sheepbridge_deinit pendingFrameBridge).2 = 0 := by
  decide

/-- Claim C5 (amended): sheepbridge_deinit clears the frame-available flag to
false and wakes nobody (zero notifications); a consumer blocked in the frame
wait nevertheless returns within the 1000 ms timeout of the timed wait,
delivering no frame. -/
theorem deinit_clears_flag_wait_times_out (st : BridgeState) (videoCb : Bool) :
    (sheepbridge_deinit st).1.frame.available = false
    ∧ (sheepbridge_deinit st).2 = 0
    ∧ (frame_wait_and_present (sheepbridge_deinit st).1.frame videoCb).2.1 = none
    ∧ (frame_wait_and_present (sheepbridge_deinit st).1.frame videoCb).2.2 ≤ 1000 :=
  ⟨rfl, rfl, rfl, Nat.le_refl 1000⟩

/-- Claim C6 counterexample: on a tick with the GUI overlay active, the A
button held and the left-mouse cache false, the tick leaves s_prev_mouse_left
at false instead of updating it to the sampled level true: the mouse-button
edge caches are not refreshed on overlay ticks. -/
theorem gui_tick_skips_mouse_cache :
    pressA.a = true
    ∧ guiTickState.caches.prevMouseL = false
    ∧ (sheepbridge_process_input guiTickState pressA).1.caches.prevMouseL = false := by
  decide

/-- Claim C6 (amended): with both input callbacks registered, every tick
refreshes the joypad edge caches (START, SELECT, A, B, X, Y) to the sampled
levels in both modes; the mouse-button caches s_prev_mouse_left and
s_prev_mouse_right are refreshed to the sampled A/B levels only when the
overlay is inactive, and are left unchanged on overlay ticks. -/
theorem edge_caches_updated (st : BridgeState) (c : Controls)
    (hp : st.inputPollCb = true) (hs : st.inputStateCb = true) :
    ((sheepbridge_process_input st c).1.caches.prevStart = c.start)
    ∧ ((sheepbridge_process_input st c).1.caches.prevSelect = c.select)
    ∧ ((sheepbridge_process_input st c).1.caches.prevA = c.a)
    ∧ ((sheepbridge_process_input st c).1.caches.prevB = c.b)
    ∧ ((sheepbridge_process_input st c).1.caches.prevX = c.x)
    ∧ ((sheepbridge_process_input st c).1.caches.prevY = c.y)
    ∧ (overlayActive st c = true →
        (sheepbridge_process_input st c).1.caches.prevMouseL = st.caches.prevMouseL
        ∧ (sheepbridge_process_input st c).1.caches.prevMouseR = st.caches.prevMouseR)
    ∧ (overlayActive st c = false →
        (sheepbridge_process_input st c).1.caches.prevMouseL = c.a
        ∧ (sheepbridge_process_input st c).1.caches.prevMouseR = c.b) := by
  have hguard : (!(st.inputPollCb && st.inputStateCb)) = false := by
    rw [hp, hs]; rfl
  set stT := if c.start && c.select && (!st.caches.prevStart || !st.caches.prevSelect)
      then sheepbridge_nuklear_toggle st else st with hstT
  have hcaches : stT.caches = st.caches := by
    rw [hstT]
    split <;> rfl
  have hov : overlayActive st c = (stT.guiVisible || stT.showkey) := rfl
  have hrun : sheepbridge_process_input st c
      = ((if stT.guiVisible || stT.showkey
          then processInputGui { stT with caches :=
            { stT.caches with prevStart := c.start, prevSelect := c.select } } c
          else processInputMouse { stT with caches :=
            { stT.caches with prevStart := c.start, prevSelect := c.select } } c).1,
         Ev.inputPoll :: (if stT.guiVisible || stT.showkey
          then processInputGui { stT with caches :=
            { stT.caches with prevStart := c.start, prevSelect := c.select } } c
          else processInputMouse { stT with caches :=
            { stT.caches with prevStart := c.start, prevSelect := c.select } } c).2) := by
    unfold sheepbridge_process_input
    rw [hguard]
    rfl
  rw [hrun, hov]
  by_cases hbr : (stT.guiVisible || stT.showkey) = true
  · rw [if_pos hbr]
    refine ⟨?_, ?_, ?_, ?_, ?_, ?_, fun _ => ⟨?_, ?_⟩, fun hfalse => absurd hbr (by rw [hfalse]; simp)⟩
    · rw [processInputGui_prevStart]
    · rw [processInputGui_prevSelect]
    · rw [processInputGui_prevA]
    · rw [processInputGui_prevB]
    · rw [processInputGui_prevX]
    · rw [processInputGui_prevY]
    · rw [processInputGui_prevMouseL]
      show stT.caches.prevMouseL = st.caches.prevMouseL
      rw [hcaches]
    · rw [processInputGui_prevMouseR]
      show stT.caches.prevMouseR = st.caches.prevMouseR
      rw [hcaches]
  · rw [if_neg hbr]
    have hbr' : (stT.guiVisible || stT.showkey) = false := by
      revert hbr
      cases stT.guiVisible || stT.showkey <;> simp
    refine ⟨?_, ?_, ?_, ?_, ?_, ?_, fun htrue => absurd htrue hbr, fun _ => ⟨?_, ?_⟩⟩
    · rw [processInputMouse_prevStart]
    · rw [processInputMouse_prevSelect]
    · rw [processInputMouse_prevA]
    · rw [processInputMouse_prevB]
    · rw [processInputMouse_prevX]
    · rw [processInputMouse_prevY]
    · rw [processInputMouse_prevMouseL]
    · rw [processInputMouse_prevMouseR]

/-- Witness for edge_caches_updated on an overlay-off tick with A held. -/
theorem edge_caches_updated_witness :
    plainTickState.inputPollCb = true ∧ plainTickState.inputStateCb = true
    ∧ (((sheepbridge_process_input plainTickState pressA).1.caches.prevStart = pressA.start)
      ∧ ((sheepbridge_process_input plainTickState pressA).1.caches.prevSelect = pressA.select)
      ∧ ((sheepbridge_process_input plainTickState pressA).1.caches.prevA = pressA.a)
      ∧ ((sheepbridge_process_input plainTickState pressA).1.caches.prevB = pressA.b)
      ∧ ((sheepbridge_process_input plainTickState pressA).1.caches.prevX = pressA.x)
      ∧ ((sheepbridge_process_input plainTickState pressA).1.caches.prevY = pressA.y)
      ∧ (overlayActive plainTickState pressA = true →
          (sheepbridge_process_input plainTickState pressA).1.caches.prevMouseL
            = plainTickState.caches.prevMouseL
          ∧ (sheepbridge_process_input plainTickState pressA).1.caches.prevMouseR
            = plainTickState.caches.prevMouseR)
      ∧ (overlayActive plainTickState pressA = false →
          (sheepbridge_process_input plainTickState pressA).1.caches.prevMouseL = pressA.a
          ∧ (sheepbridge_process_input plainTickState pressA).1.caches.prevMouseR
            = pressA.b)) :=
  ⟨rfl, rfl, edge_caches_updated plainTickState pressA rfl rfl⟩

/-- Witness for audio_fifo_order at capacity 4, max_frames 3, concrete
frames and an empty ring. -/
theorem audio_fifo_order_witness :
    (4 : Nat) ≤ 4 ∧ (3 : Nat) ≤ 3 ∧ availSamples emptyAudio = 0 ∧
    ((drain_audio_frames
      (sheepbridge_store_audio_samples
        { bufSizeFrames := 4, size := 2 * 4, buf := fun _ => 0, readIdx := 0, writeIdx := 0 }
        (some [10, 11, 20, 21, 30, 31]) 3) 3).1 = [10, 11, 20, 21, 30, 31]
    ∧ (drain_and_send_audio emptyAudio true).2 = []
    ∧ (∀ batch ∈ (drain_and_send_audio emptyAudio true).2,
        batch.length ≤ frames_to_samples 2048)) :=
  ⟨by decide, by decide, by decide,
   audio_fifo_order 4 3 4 10 11 20 21 30 31 (fun _ => 0) (by decide) (by decide)
     emptyAudio true (by decide) emptyAudio true⟩

end LibretroBridge
